import Mathlib

/-!
# AliFastJetFinder: jet-finding adapter around the FastJet clustering engine

A shallow embedding of `JETAN/AliFastJetFinder.cxx`.

* C++ objects reached through pointers become fields of one explicit state
  record (`AliFastJetFinder`); a member function becomes a function from state
  to state.
* `Double_t` and `Float_t` values are rationals: the code only copies them,
  compares one of them with zero and stores the literal zero.  `Int_t` is `Int`.
* A reference to a unit cell (a `TRef` to an `AliJetUnitArray`) is the position
  of that unit in the reader's unit array.
* The FastJet library, the reader's `ExecTasks`, `AliFastJetInput::FillInput`
  and the `AliJetBkg` estimators are not part of the translated file; they are
  parameters of the embedding (`FastJet`, `Collaborators`).
* Console output (`cout`, `printf`, `Print`) has no effect on the state and is
  left out, and with it the first loop of the branch without background
  subtraction, which only prints the positive-energy units.
-/

namespace AliFastJet

abbrev Double_t := Rat
abbrev Float_t := Rat
abbrev Int_t := Int

/-! ## Unit cells -/

/-- Cut flag of a unit cell. The enumeration is declared in `AliJetUnitArray.h`;
the translated file names only `kPtSmaller`. -/
inductive AliJetFinderUnitCutFlagType where
  | kPtSmaller
  | kPtHigher
  deriving DecidableEq, Repr

/-- Signal flag of a unit cell (`AliJetUnitArray.h`); the translated file names
only `kBad`. -/
inductive AliJetFinderUnitSignalFlagType where
  | kGood
  | kBad
  deriving DecidableEq, Repr

/-- Detector flag of a unit cell (`AliJetUnitArray.h`); the translated file
names only `kTpc`. -/
inductive AliJetFinderUnitDetectorFlagType where
  | kTpc
  | kEmcal
  | kAll
  deriving DecidableEq, Repr

/-- Jet flag of a unit cell (`AliJetUnitArray.h`); the translated file names
only `kOutJet`. -/
inductive AliJetFinderUnitFlagType where
  | kInCurrentJet
  | kInJet
  | kOutJet
  | kBelowMinEt
  deriving DecidableEq, Repr

open AliJetFinderUnitCutFlagType AliJetFinderUnitSignalFlagType
  AliJetFinderUnitDetectorFlagType AliJetFinderUnitFlagType

/-- One cell of the per-event unit buffer: the data members of
`AliJetUnitArray` that `AliFastJetFinder.cxx` reads or writes, together with the
two pieces of `TObject` state it resets (the `kIsReferenced` bit and the unique
ID). -/
structure AliJetUnitArray where
  fUnitTrackID : Int_t
  fUnitEnergy : Float_t
  fUnitEta : Float_t
  fUnitPhi : Float_t
  fUnitCutFlag : AliJetFinderUnitCutFlagType
  fUnitCutFlag2 : AliJetFinderUnitCutFlagType
  fUnitSignalFlag : AliJetFinderUnitSignalFlagType
  fUnitSignalFlagC : AliJetFinderUnitSignalFlagType
  fUnitDetectorFlag : AliJetFinderUnitDetectorFlagType
  fUnitFlag : AliJetFinderUnitFlagType
  fUnitTrackRef : List Nat
  kIsReferenced : Bool
  fUniqueID : Nat
  deriving DecidableEq, Repr

/-! ## The FastJet boundary -/

/-- A `fastjet::PseudoJet`: a four-momentum and the user index of the input
particle it comes from (`-1` when none was set). -/
structure PseudoJet where
  px : Double_t
  py : Double_t
  pz : Double_t
  E : Double_t
  user_index : Int
  deriving DecidableEq, Repr

/-- The arguments of the `fastjet::JetDefinition` constructor. -/
structure JetDefinition where
  algorithm : Int
  rParam : Double_t
  recombScheme : Int
  strategy : Int
  deriving DecidableEq, Repr

/-- The arguments of the `fastjet::GhostedAreaSpec` constructor. -/
structure GhostedAreaSpec where
  ghostEtamax : Double_t
  activeAreaRepeats : Int
  ghostArea : Double_t
  deriving DecidableEq, Repr

/-- The arguments of the `fastjet::AreaDefinition` constructor. -/
structure AreaDefinition where
  areaType : Int
  ghostSpec : GhostedAreaSpec
  deriving DecidableEq, Repr

/-- The arguments of the `fastjet::RangeDefinition` constructor. -/
structure RangeDefinition where
  rapMin : Double_t
  rapMax : Double_t
  phiMin : Double_t
  phiMax : Double_t
  deriving DecidableEq, Repr

/-- What the code asks of a `fastjet::ClusterSequenceArea` once it is built. -/
structure ClusterSequenceArea where
  strategy_string : String
  inclusive_jets : Double_t → List PseudoJet
  subtracted_jets : RangeDefinition → Double_t → List PseudoJet
  constituents : PseudoJet → List PseudoJet
  area : PseudoJet → Double_t
  area_error : PseudoJet → Double_t

/-- The external clustering library: building a cluster sequence from the input
particles and the two definitions, sorting jets by pt, and the two textual
descriptions that go into the header comment. -/
structure FastJet where
  clusterSequenceArea : List PseudoJet → JetDefinition → AreaDefinition → ClusterSequenceArea
  sorted_by_pt : List PseudoJet → List PseudoJet
  jetDefDescription : JetDefinition → String
  areaDefDescription : AreaDefinition → String

/-! ## Objects the finder works on -/

/-- The getters of `AliFastJetHeaderV1` that `FindJets` calls, and the comment
it sets. -/
structure AliFastJetHeaderV1 where
  fDebug : Bool
  fBGMode : Bool
  fRparam : Double_t
  fStrategy : Int
  fRecombScheme : Int
  fAlgorithm : Int
  fGhostEtaMax : Double_t
  fGhostArea : Double_t
  fActiveAreaRepeats : Int
  fAreaType : Int
  fPtMin : Double_t
  fRapMax : Double_t
  fRapMin : Double_t
  fPhiMax : Double_t
  fPhiMin : Double_t
  fComment : String
  deriving DecidableEq, Repr

/-- The reader as the finder sees it: `GetUnitArray()` returns a null pointer
(`none`) or the unit array. -/
structure AliJetReader where
  fUnitArray : Option (List AliJetUnitArray)
  deriving DecidableEq, Repr

/-- The input object handed to FastJet: the input-particle vector returned by
`GetInputParticles()`. Its header and reader pointers are those of the finder
and are supplied when `FillInput` is called. -/
structure AliFastJetInput where
  fInputParticles : List PseudoJet
  deriving DecidableEq, Repr

/-- Modelled from the spec: `AliAODJet` is declared outside the translated file.
An output jet object: the four-momentum given to the constructor, the two
arguments of `SetEffArea` (the effective area and the value the code passes
after it), and the track references added by `AddTrack`. -/
structure AliAODJet where
  px : Double_t
  py : Double_t
  pz : Double_t
  E : Double_t
  fEffectiveArea : Double_t × Double_t
  fRefTracks : List Nat
  deriving DecidableEq, Repr

/-- The constructor `AliAODJet(px, py, pz, e)`: no area set, no track attached. -/
def AliAODJet.ofMomentum (px py pz e : Double_t) : AliAODJet :=
  { px := px, py := py, pz := pz, E := e, fEffectiveArea := (0, 0), fRefTracks := [] }

/-- The call `aodjet.SetEffArea(a, b)`. -/
def AliAODJet.SetEffArea (jet : AliAODJet) (a b : Double_t) : AliAODJet :=
  { jet with fEffectiveArea := (a, b) }

/-- The call `aodjet.AddTrack(uArray)`, where `uArray` is the unit at position
`ii` of the unit array: the reference is appended to the jet's track list. Only
the jet's list of references is modelled. -/
def AliAODJet.AddTrack (jet : AliAODJet) (ii : Nat) : AliAODJet :=
  { jet with fRefTracks := jet.fRefTracks ++ [ii] }

/-- The background helper as its estimators see it: the objects behind the
pointers given to `SetHeader`, `SetReader` and `SetFastJetInput`. -/
structure AliJetBkg where
  fHeader : AliFastJetHeaderV1
  fReader : AliJetReader
  fInputFJ : AliFastJetInput
  deriving DecidableEq, Repr

/-- The event background object: `SetBackground(i, v)` writes slot `i`. -/
structure AliAODPWG4JetEventBackground where
  fBackground : Nat → Double_t

/-- The call `fAODEvBkg->SetBackground(i, back)`. -/
def AliAODPWG4JetEventBackground.SetBackground (b : AliAODPWG4JetEventBackground)
    (i : Nat) (back : Double_t) : AliAODPWG4JetEventBackground :=
  { fBackground := fun k => if k = i then back else b.fBackground k }

/-- The state of the finder: the objects behind its pointer members. -/
structure AliFastJetFinder where
  fHeader : AliFastJetHeaderV1
  fReader : AliJetReader
  fInputFJ : AliFastJetInput
  fAODjets : List AliAODJet
  fAODEvBkg : AliAODPWG4JetEventBackground

/-- Modelled from the spec: `AddJet` belongs to the base class `AliJetFinder`,
outside the translated file. The jet is appended to the output jet list. -/
def AliFastJetFinder.AddJet (s : AliFastJetFinder) (jet : AliAODJet) : AliFastJetFinder :=
  { s with fAODjets := s.fAODjets ++ [jet] }

/-! ## FindJets -/

/-- The innermost loop of `FindJets` (`for ii < nIn`), for one constituent index
`ind`: every unit with positive energy gets the running counter `ipart` as
track ID, and the unit whose counter equals `ind` is attached to the jet. -/
def scanUnits (ind : Int) :
    List AliJetUnitArray → Nat → Int → AliAODJet → List AliJetUnitArray × AliAODJet
  | [], _, _, jet => ([], jet)
  | uArray :: rest, ii, ipart, jet =>
    if uArray.fUnitEnergy > 0 then
      let uArray1 := { uArray with fUnitTrackID := ipart }
      let jet1 := if ipart = ind then jet.AddTrack ii else jet
      let r := scanUnits ind rest (ii + 1) (ipart + 1) jet1
      (uArray1 :: r.1, r.2)
    else
      let r := scanUnits ind rest (ii + 1) ipart jet
      (uArray :: r.1, r.2)

/-- The loop over the constituents of one jet (`for i < nCon`): each one rescans
the whole unit array from `ii = 0`, `ipart = 0`. -/
def constituentLoop :
    List PseudoJet → List AliJetUnitArray → AliAODJet → List AliJetUnitArray × AliAODJet
  | [], fUnit, jet => (fUnit, jet)
  | mPart :: rest, fUnit, jet =>
    let r := scanUnits mPart.user_index fUnit 0 0 jet
    constituentLoop rest r.1 r.2

/-- The loop over jets in the branch without background subtraction. -/
def jetLoopNoBG (clust_seq : ClusterSequenceArea) :
    List PseudoJet → List AliJetUnitArray → List AliAODJet →
      List AliJetUnitArray × List AliAODJet
  | [], fUnit, out => (fUnit, out)
  | jet :: rest, fUnit, out =>
    let constituents := clust_seq.constituents jet
    let area := clust_seq.area jet
    let aodjet := (AliAODJet.ofMomentum jet.px jet.py jet.pz jet.E).SetEffArea area 0
    let r := constituentLoop constituents fUnit aodjet
    jetLoopNoBG clust_seq rest r.1 (out ++ [r.2])

/-- The loop over jets in the background-subtraction branch: the area and its
error are computed for the printout only. -/
def jetLoopBG (clust_seq : ClusterSequenceArea) :
    List PseudoJet → List AliAODJet → List AliAODJet
  | [], out => out
  | jet :: rest, out =>
    let aodjet := AliAODJet.ofMomentum jet.px jet.py jet.pz jet.E
    jetLoopBG clust_seq rest (out ++ [aodjet])

/-- The jet definition `FindJets` builds from the header. -/
def jetDefOf (header : AliFastJetHeaderV1) : JetDefinition :=
  { algorithm := header.fAlgorithm, rParam := header.fRparam,
    recombScheme := header.fRecombScheme, strategy := header.fStrategy }

/-- The area definition `FindJets` builds from the header. -/
def areaDefOf (header : AliFastJetHeaderV1) : AreaDefinition :=
  { areaType := header.fAreaType,
    ghostSpec := { ghostEtamax := header.fGhostEtaMax,
                   activeAreaRepeats := header.fActiveAreaRepeats,
                   ghostArea := header.fGhostArea } }

/-- The header comment of the background-subtraction branch. -/
def commentBG (fj : FastJet) (jetDef : JetDefinition) (areaDef : AreaDefinition)
    (clust_seq : ClusterSequenceArea) : String :=
  "Running FastJet algorithm with the following setup. " ++ "Jet definition: " ++
    fj.jetDefDescription jetDef ++ ". Area definition: " ++ fj.areaDefDescription areaDef ++
    ". Strategy adopted by FastJet: " ++ clust_seq.strategy_string

/-- The header comment of the branch without background subtraction. -/
def commentNoBG (fj : FastJet) (jetDef : JetDefinition)
    (clust_seq : ClusterSequenceArea) : String :=
  "Running FastJet algorithm with the following setup. " ++ "Jet definition: " ++
    fj.jetDefDescription jetDef ++ ". Strategy adopted by FastJet: " ++
    clust_seq.strategy_string

/-- The member function `AliFastJetFinder::FindJets()`. -/
def FindJets (fj : FastJet) (s : AliFastJetFinder) : AliFastJetFinder :=
  let header := s.fHeader
  let bgMode := header.fBGMode
  let inputParticles := s.fInputFJ.fInputParticles
  let jetDef := jetDefOf header
  let areaDef := areaDefOf header
  if bgMode then
    let clust_seq := fj.clusterSequenceArea inputParticles jetDef areaDef
    let header1 := { header with fComment := commentBG fj jetDef areaDef clust_seq }
    let ptmin := header1.fPtMin
    let _inclusiveJets := clust_seq.inclusive_jets ptmin
    let range : RangeDefinition :=
      { rapMin := header1.fRapMin, rapMax := header1.fRapMax,
        phiMin := header1.fPhiMin, phiMax := header1.fPhiMax }
    let subJets := clust_seq.subtracted_jets range ptmin
    let jets := fj.sorted_by_pt subJets
    { s with fHeader := header1, fAODjets := jetLoopBG clust_seq jets s.fAODjets }
  else
    match s.fReader.fUnitArray with
    | none => s
    | some fUnit =>
      let clust_seq := fj.clusterSequenceArea inputParticles jetDef areaDef
      let header1 := { header with fComment := commentNoBG fj jetDef clust_seq }
      let ptmin := header1.fPtMin
      let inclusiveJets := clust_seq.inclusive_jets ptmin
      let jets := fj.sorted_by_pt inclusiveJets
      let r := jetLoopNoBG clust_seq jets fUnit s.fAODjets
      { s with fHeader := header1, fReader := { fUnitArray := some r.1 }, fAODjets := r.2 }

/-! ## ProcessEvent2 -/

/-- What `fReader->ExecTasks(procid, ref)` hands back: its return value, the
reference array it filled (positions in the unit array) and the reader after
the call. -/
structure ExecTasksResult where
  ok : Bool
  ref : List Nat
  reader : AliJetReader
  deriving DecidableEq, Repr

/-- The collaborators of `ProcessEvent2` that live outside the translated file:
the FastJet library, the reader's `ExecTasks`, `AliFastJetInput::FillInput` and
the four estimators of `AliJetBkg`. -/
structure Collaborators where
  fj : FastJet
  ExecTasks : AliJetReader → Bool → ExecTasksResult
  FillInput : AliFastJetHeaderV1 → AliJetReader → AliFastJetInput → AliFastJetInput
  BkgFastJet : AliJetBkg → Double_t
  BkgChargedFastJet : AliJetBkg → Double_t
  BkgFastJetCone : AliJetBkg → List AliAODJet → Double_t
  BkgRemoveJetLeading : AliJetBkg → List AliAODJet → Double_t

/-- The body of the reset loop of `ProcessEvent2` for one referenced unit: the
nine setter calls, `ResetBit(kIsReferenced)` and `SetUniqueID(0)`. -/
def resetUnit (uA : AliJetUnitArray) : AliJetUnitArray :=
  { uA with
    fUnitTrackID := 0
    fUnitEnergy := 0
    fUnitCutFlag := kPtSmaller
    fUnitCutFlag2 := kPtSmaller
    fUnitSignalFlag := kBad
    fUnitSignalFlagC := kBad
    fUnitDetectorFlag := kTpc
    fUnitFlag := kOutJet
    fUnitTrackRef := []
    kIsReferenced := false
    fUniqueID := 0 }

/-- The reset loop of `ProcessEvent2` (`for i < nEntRef`): the unit behind each
entry of the reference array is reset in place. An entry is a position of the
unit array; an entry beyond its end refers to no unit of the buffer. -/
def resetLoop : List Nat → List AliJetUnitArray → List AliJetUnitArray
  | [], fUnit => fUnit
  | p :: rest, fUnit => resetLoop rest (fUnit.modify resetUnit p)

/-- Modelled from the spec: `Reset` belongs to the base class `AliJetFinder`,
outside the translated file. It resets the jet list of the finder. -/
def AliFastJetFinder.Reset (s : AliFastJetFinder) : AliFastJetFinder :=
  { s with fAODjets := [] }

/-- The state of `ProcessEvent2` when `FindJets` has returned: the reader is the
one `ExecTasks` left, the input is the one `FillInput` produced. -/
def afterFindJets (c : Collaborators) (s : AliFastJetFinder) : AliFastJetFinder :=
  let r := c.ExecTasks s.fReader false
  let s1 := { s with fReader := r.reader }
  let s2 := { s1 with fInputFJ := c.FillInput s1.fHeader s1.fReader s1.fInputFJ }
  FindJets c.fj s2

/-- The background helper after the three setter calls that follow `FindJets`. -/
def bkgAfterFindJets (c : Collaborators) (s : AliFastJetFinder) : AliJetBkg :=
  let s3 := afterFindJets c s
  { fHeader := s3.fHeader, fReader := s3.fReader, fInputFJ := s3.fInputFJ }

/-- The member function `AliFastJetFinder::ProcessEvent2()`: its return value
and the state it leaves. -/
def ProcessEvent2 (c : Collaborators) (s : AliFastJetFinder) : Bool × AliFastJetFinder :=
  let procid := false
  let r := c.ExecTasks s.fReader procid
  if !r.ok then (false, { s with fReader := r.reader })
  else
    let s3 := afterFindJets c s
    let fJetBkg := bkgAfterFindJets c s
    let bkg1 := c.BkgFastJet fJetBkg
    let bkg2 := c.BkgChargedFastJet fJetBkg
    let bkg3 := c.BkgFastJetCone fJetBkg s3.fAODjets
    let bkg4 := c.BkgRemoveJetLeading fJetBkg s3.fAODjets
    let evBkg := (((s3.fAODEvBkg.SetBackground 0 bkg1).SetBackground 1 bkg2).SetBackground 2
      bkg3).SetBackground 3 bkg4
    let reader := { s3.fReader with fUnitArray := s3.fReader.fUnitArray.map (resetLoop r.ref) }
    (true, ({ s3 with fAODEvBkg := evBkg, fReader := reader }).Reset)

/-! ## Vocabulary of the statements -/

/-- The test `uArray->GetUnitEnergy() > 0.` as a Boolean. -/
def hasEnergy (u : AliJetUnitArray) : Bool := decide (u.fUnitEnergy > 0)

/-- Positions, counted from `ii`, of the units with positive energy. -/
def positiveFrom (ii : Nat) (fUnit : List AliJetUnitArray) : List Nat :=
  ((fUnit.enumFrom ii).filter (fun p => hasEnergy p.2)).map Prod.fst

/-- The list `P` of the units with energy `> 0`, in unit-array order, each unit
given by its position in the unit array. -/
def positiveUnits (fUnit : List AliJetUnitArray) : List Nat := positiveFrom 0 fUnit

/-- The number of units with positive energy that precede position `p`. -/
def positiveBefore (fUnit : List AliJetUnitArray) (p : Nat) : Nat :=
  ((fUnit.take p).filter hasEnergy).length

/-- The entry `P[k]` for a user index `k` with `0 ≤ k < |P|`, nothing for an
index out of that range. -/
def unitOfIndex (P : List Nat) (k : Int) : Option Nat :=
  if 0 ≤ k then P[k.toNat]? else none

/-- A user index is in range for `P` when `0 ≤ k < |P|`. -/
def inRange (P : List Nat) (k : Int) : Bool := decide (0 ≤ k) && decide (k < P.length)

/-- The cluster sequence `FindJets` builds for the state `s`. -/
def clusterSequenceOf (fj : FastJet) (s : AliFastJetFinder) : ClusterSequenceArea :=
  fj.clusterSequenceArea s.fInputFJ.fInputParticles (jetDefOf s.fHeader) (areaDefOf s.fHeader)

/-- The jets of the cluster sequence for the state `s` above the configured
`ptmin`, in the engine's pt-sorted order: the background-subtracted jets when
`bgMode` is on, the inclusive jets when it is off. -/
def engineJets (fj : FastJet) (s : AliFastJetFinder) : List PseudoJet :=
  if s.fHeader.fBGMode then
    fj.sorted_by_pt ((clusterSequenceOf fj s).subtracted_jets
      { rapMin := s.fHeader.fRapMin, rapMax := s.fHeader.fRapMax,
        phiMin := s.fHeader.fPhiMin, phiMax := s.fHeader.fPhiMax } s.fHeader.fPtMin)
  else
    fj.sorted_by_pt ((clusterSequenceOf fj s).inclusive_jets s.fHeader.fPtMin)

/-- The jets the engine returns to `FindJets` above the configured `ptmin`, in
its pt-sorted order: with `bgMode` on, the sorted background-subtracted jets of
the cluster sequence; with `bgMode` off and the unit array present, its sorted
inclusive jets; with `bgMode` off and a null unit array, none, since `FindJets`
returns before the cluster sequence is built. -/
def returnedJets (fj : FastJet) (s : AliFastJetFinder) : List PseudoJet :=
  if s.fHeader.fBGMode then
    fj.sorted_by_pt ((fj.clusterSequenceArea s.fInputFJ.fInputParticles (jetDefOf s.fHeader)
      (areaDefOf s.fHeader)).subtracted_jets
        { rapMin := s.fHeader.fRapMin, rapMax := s.fHeader.fRapMax,
          phiMin := s.fHeader.fPhiMin, phiMax := s.fHeader.fPhiMax } s.fHeader.fPtMin)
  else
    match s.fReader.fUnitArray with
    | none => []
    | some _ =>
      fj.sorted_by_pt ((fj.clusterSequenceArea s.fInputFJ.fInputParticles (jetDefOf s.fHeader)
        (areaDefOf s.fHeader)).inclusive_jets s.fHeader.fPtMin)

/-- The output jets `FindJets` added: what follows the jets that were already in
the list. -/
def addedJets (fj : FastJet) (s : AliFastJetFinder) : List AliAODJet :=
  (FindJets fj s).fAODjets.drop s.fAODjets.length

/-- The reset state of a unit cell: track ID 0, energy 0, both cut flags
`kPtSmaller`, signal flags `kBad`, detector flag `kTpc`, jet flag `kOutJet`, no
track references, `kIsReferenced` cleared and unique ID 0. -/
def IsReset (u : AliJetUnitArray) : Prop :=
  u.fUnitTrackID = 0 ∧ u.fUnitEnergy = 0 ∧ u.fUnitCutFlag = kPtSmaller ∧
    u.fUnitCutFlag2 = kPtSmaller ∧ u.fUnitSignalFlag = kBad ∧ u.fUnitSignalFlagC = kBad ∧
    u.fUnitDetectorFlag = kTpc ∧ u.fUnitFlag = kOutJet ∧ u.fUnitTrackRef = [] ∧
    u.kIsReferenced = false ∧ u.fUniqueID = 0

instance (u : AliJetUnitArray) : Decidable (IsReset u) := by
  unfold IsReset; infer_instance

/-- The unit array one scan of the innermost loop leaves: the units with
positive energy are numbered from `ipart` on, the others are untouched. -/
def renumber : Int → List AliJetUnitArray → List AliJetUnitArray
  | _, [] => []
  | ipart, u :: rest =>
    if hasEnergy u then { u with fUnitTrackID := ipart } :: renumber (ipart + 1) rest
    else u :: renumber ipart rest

/-- The output jet built for an engine jet in the branch without background
subtraction, given the list `P` of positive-energy units. -/
def outputJetNoBG (clust_seq : ClusterSequenceArea) (P : List Nat) (jet : PseudoJet) :
    AliAODJet :=
  { px := jet.px, py := jet.py, pz := jet.pz, E := jet.E,
    fEffectiveArea := (clust_seq.area jet, 0),
    fRefTracks := (clust_seq.constituents jet).filterMap (fun c => unitOfIndex P c.user_index) }

/-- No jet of the list has a constituent. -/
def noConstituent (clust_seq : ClusterSequenceArea) (jets : List PseudoJet) : Bool :=
  jets.all (fun jet => (clust_seq.constituents jet).isEmpty)

/-- The library `fj` with the area error of every cluster sequence replaced by
`g`; everything else is as in `fj`. -/
def withAreaError (fj : FastJet) (g : PseudoJet → Double_t) : FastJet :=
  { fj with clusterSequenceArea := fun particles jetDef areaDef =>
      { fj.clusterSequenceArea particles jetDef areaDef with area_error := g } }

/-- The pseudorapidity of a polar angle, `-ln(tan(theta/2))`. -/
noncomputable def pseudorapidity (theta : ℝ) : ℝ := -Real.log (Real.tan (theta / 2))

/-- The member function `AliFastJetFinder::EtaToTheta(arg)` over the reals:
`2.*atan(exp(-arg))`. -/
noncomputable def EtaToTheta (arg : ℝ) : ℝ := 2 * Real.arctan (Real.exp (-arg))

/-! ## Concrete events -/

/-- A unit cell with energy `e` and track ID `tid`, none of its flags in the
reset state. -/
def exUnit (e : Float_t) (tid : Int_t) : AliJetUnitArray :=
  { fUnitTrackID := tid, fUnitEnergy := e, fUnitEta := 0, fUnitPhi := 0,
    fUnitCutFlag := kPtHigher, fUnitCutFlag2 := kPtHigher, fUnitSignalFlag := kGood,
    fUnitSignalFlagC := kGood, fUnitDetectorFlag := kEmcal, fUnitFlag := kInJet,
    fUnitTrackRef := [2], kIsReferenced := true, fUniqueID := 3 }

/-- A pseudojet with four-momentum `(1, 2, 3, 4)` and user index `k`. -/
def exPseudoJet (k : Int) : PseudoJet :=
  { px := 1, py := 2, pz := 3, E := 4, user_index := k }

/-- A library whose cluster sequences return the jets `jets` (inclusive and
subtracted alike), give every jet the constituents `constituents`, area `2` and
area error `1`, and whose sort keeps the order. -/
def exFastJet (jets constituents : List PseudoJet) : FastJet :=
  { clusterSequenceArea := fun _ _ _ =>
      { strategy_string := "N2Plain", inclusive_jets := fun _ => jets,
        subtracted_jets := fun _ _ => jets, constituents := fun _ => constituents,
        area := fun _ => 2, area_error := fun _ => 1 },
    sorted_by_pt := fun l => l,
    jetDefDescription := fun _ => "kt",
    areaDefDescription := fun _ => "active" }

/-- A header with background mode `bg` and an empty comment. -/
def exHeader (bg : Bool) : AliFastJetHeaderV1 :=
  { fDebug := false, fBGMode := bg, fRparam := 1, fStrategy := 0, fRecombScheme := 0,
    fAlgorithm := 0, fGhostEtaMax := 7, fGhostArea := 0, fActiveAreaRepeats := 1,
    fAreaType := 0, fPtMin := 5, fRapMax := 1, fRapMin := -1, fPhiMax := 6, fPhiMin := 0,
    fComment := "" }

/-- A finder with background mode `bg`, unit array `units`, one input particle,
no output jet yet and all background slots at zero. -/
def exFinder (bg : Bool) (units : Option (List AliJetUnitArray)) : AliFastJetFinder :=
  { fHeader := exHeader bg, fReader := { fUnitArray := units },
    fInputFJ := { fInputParticles := [exPseudoJet 0] },
    fAODjets := [], fAODEvBkg := { fBackground := fun _ => 0 } }

/-- Collaborators whose `ExecTasks` returns `ok` with the reference array `ref`
and leaves the reader as it is, whose `FillInput` leaves the input as it is, and
whose estimators return `11`, `12`, the number of jets they are given and `14`. -/
def exCollaborators (ok : Bool) (ref : List Nat) (jets constituents : List PseudoJet) :
    Collaborators :=
  { fj := exFastJet jets constituents,
    ExecTasks := fun reader _ => { ok := ok, ref := ref, reader := reader },
    FillInput := fun _ _ input => input,
    BkgFastJet := fun _ => 11,
    BkgChargedFastJet := fun _ => 12,
    BkgFastJetCone := fun _ aodJets => (aodJets.length : Rat),
    BkgRemoveJetLeading := fun _ _ => 14 }

/-! ## Lemmas on the loops -/

theorem scanUnits_fst (ind : Int) (fUnit : List AliJetUnitArray) (ii : Nat) (ipart : Int)
    (jet : AliAODJet) : (scanUnits ind fUnit ii ipart jet).1 = renumber ipart fUnit := by
  induction fUnit generalizing ii ipart jet with
  | nil => rfl
  | cons u rest ih =>
    by_cases h : u.fUnitEnergy > 0
    · simp [scanUnits, renumber, hasEnergy, h, ih]
    · simp [scanUnits, renumber, hasEnergy, h, ih]

theorem positiveFrom_nil (ii : Nat) : positiveFrom ii [] = [] := rfl

theorem positiveFrom_cons (ii : Nat) (u : AliJetUnitArray) (rest : List AliJetUnitArray) :
    positiveFrom ii (u :: rest) =
      if hasEnergy u then ii :: positiveFrom (ii + 1) rest else positiveFrom (ii + 1) rest := by
  by_cases h : hasEnergy u <;> simp [positiveFrom, List.enumFrom_cons, List.filter_cons, h]

theorem scanUnits_snd (ind : Int) (fUnit : List AliJetUnitArray) (ii : Nat) (ipart : Int)
    (jet : AliAODJet) :
    (scanUnits ind fUnit ii ipart jet).2 =
      { jet with fRefTracks := jet.fRefTracks ++
          (if ipart ≤ ind then ((positiveFrom ii fUnit)[(ind - ipart).toNat]?).toList else []) } := by
  induction fUnit generalizing ii ipart jet with
  | nil => simp [scanUnits, positiveFrom_nil]
  | cons u rest ih =>
    by_cases h : u.fUnitEnergy > 0
    · have hE : hasEnergy u = true := by simp [hasEnergy, h]
      simp only [scanUnits, h, if_true, ih, positiveFrom_cons, hE]
      rcases lt_trichotomy ipart ind with hlt | heq | hgt
      · have h1 : ipart + 1 ≤ ind := by omega
        have h2 : ipart ≤ ind := by omega
        have h3 : (ind - ipart).toNat = (ind - (ipart + 1)).toNat + 1 := by omega
        have h4 : ipart ≠ ind := by omega
        simp [h1, h2, h3, h4]
      · subst heq
        simp [AliAODJet.AddTrack]
      · have h1 : ¬ ipart + 1 ≤ ind := by omega
        have h2 : ¬ ipart ≤ ind := by omega
        have h4 : ipart ≠ ind := by omega
        simp [h1, h2, h4]
    · have hE : hasEnergy u = false := by simp [hasEnergy, h]
      simp only [scanUnits, h, if_false, ih, positiveFrom_cons, hE]
      simp

theorem positiveFrom_renumber (ii : Nat) (k : Int) (fUnit : List AliJetUnitArray) :
    positiveFrom ii (renumber k fUnit) = positiveFrom ii fUnit := by
  induction fUnit generalizing ii k with
  | nil => rfl
  | cons u rest ih =>
    by_cases h : hasEnergy u
    · have h2 : hasEnergy { u with fUnitTrackID := k } = true := by
        simpa [hasEnergy] using h
      simp [renumber, h, positiveFrom_cons, h2, ih]
    · simp [renumber, h, positiveFrom_cons, ih]

theorem renumber_renumber (k k2 : Int) (fUnit : List AliJetUnitArray) :
    renumber k (renumber k2 fUnit) = renumber k fUnit := by
  induction fUnit generalizing k k2 with
  | nil => rfl
  | cons u rest ih =>
    by_cases h : hasEnergy u
    · have h2 : hasEnergy { u with fUnitTrackID := k2 } = true := by
        simpa [hasEnergy] using h
      simp [renumber, h, h2, ih]
    · simp [renumber, h, ih]

theorem length_renumber (k : Int) (fUnit : List AliJetUnitArray) :
    (renumber k fUnit).length = fUnit.length := by
  induction fUnit generalizing k with
  | nil => rfl
  | cons u rest ih =>
    by_cases h : hasEnergy u <;> simp [renumber, h, ih]

theorem scanUnits_snd_zero (ind : Int) (fUnit : List AliJetUnitArray) (jet : AliAODJet) :
    (scanUnits ind fUnit 0 0 jet).2 =
      { jet with fRefTracks := jet.fRefTracks ++
          (unitOfIndex (positiveUnits fUnit) ind).toList } := by
  rw [scanUnits_snd]
  by_cases h : (0 : Int) ≤ ind <;> simp [unitOfIndex, positiveUnits, h]

theorem constituentLoop_fst (constituents : List PseudoJet) (fUnit : List AliJetUnitArray)
    (jet : AliAODJet) :
    (constituentLoop constituents fUnit jet).1 =
      if constituents = [] then fUnit else renumber 0 fUnit := by
  induction constituents generalizing fUnit jet with
  | nil => rfl
  | cons c rest ih =>
    simp only [constituentLoop, ih, scanUnits_fst, renumber_renumber]
    by_cases h : rest = [] <;> simp [h]

theorem constituentLoop_snd (constituents : List PseudoJet) (fUnit : List AliJetUnitArray)
    (jet : AliAODJet) :
    (constituentLoop constituents fUnit jet).2 =
      { jet with fRefTracks := jet.fRefTracks ++
          constituents.filterMap (fun c => unitOfIndex (positiveUnits fUnit) c.user_index) } := by
  induction constituents generalizing fUnit jet with
  | nil => simp [constituentLoop]
  | cons c rest ih =>
    simp only [constituentLoop, ih, scanUnits_fst, scanUnits_snd_zero, positiveUnits,
      positiveFrom_renumber]
    cases h : unitOfIndex (positiveFrom 0 fUnit) c.user_index <;>
      simp [List.filterMap_cons, h]

theorem jetLoopNoBG_fst (clust_seq : ClusterSequenceArea) (jets : List PseudoJet)
    (fUnit : List AliJetUnitArray) (out : List AliAODJet) :
    (jetLoopNoBG clust_seq jets fUnit out).1 =
      if noConstituent clust_seq jets then fUnit else renumber 0 fUnit := by
  induction jets generalizing fUnit out with
  | nil => rfl
  | cons jet rest ih =>
    simp only [jetLoopNoBG, ih, constituentLoop_fst, noConstituent, List.all_cons]
    by_cases h1 : clust_seq.constituents jet = []
    · simp [h1]
    · have h2 : (clust_seq.constituents jet).isEmpty = false := by
        cases hc : clust_seq.constituents jet with
        | nil => exact absurd hc h1
        | cons a l => rfl
      simp only [h1, h2, if_false, Bool.false_and, renumber_renumber]
      split <;> simp

theorem jetLoopNoBG_snd (clust_seq : ClusterSequenceArea) (jets : List PseudoJet)
    (fUnit : List AliJetUnitArray) (out : List AliAODJet) :
    (jetLoopNoBG clust_seq jets fUnit out).2 =
      out ++ jets.map (outputJetNoBG clust_seq (positiveUnits fUnit)) := by
  induction jets generalizing fUnit out with
  | nil => simp [jetLoopNoBG]
  | cons jet rest ih =>
    have hP : positiveUnits (constituentLoop (clust_seq.constituents jet) fUnit
        ((AliAODJet.ofMomentum jet.px jet.py jet.pz jet.E).SetEffArea
          (clust_seq.area jet) 0)).1 = positiveUnits fUnit := by
      rw [constituentLoop_fst]
      split
      · rfl
      · exact positiveFrom_renumber 0 0 fUnit
    simp only [jetLoopNoBG, ih, hP, constituentLoop_snd, List.map_cons, List.append_assoc,
      List.singleton_append]
    simp [outputJetNoBG, AliAODJet.ofMomentum, AliAODJet.SetEffArea]

theorem jetLoopBG_eq (clust_seq : ClusterSequenceArea) (jets : List PseudoJet)
    (out : List AliAODJet) :
    jetLoopBG clust_seq jets out =
      out ++ jets.map (fun jet => AliAODJet.ofMomentum jet.px jet.py jet.pz jet.E) := by
  induction jets generalizing out with
  | nil => simp [jetLoopBG]
  | cons jet rest ih => simp [jetLoopBG, ih]

theorem getElem?_renumber (k : Int) (fUnit : List AliJetUnitArray) (p : Nat) :
    (renumber k fUnit)[p]? = fUnit[p]?.map (fun u =>
      if hasEnergy u then { u with fUnitTrackID := k + (positiveBefore fUnit p : Nat) }
      else u) := by
  induction fUnit generalizing k p with
  | nil => simp [renumber]
  | cons u rest ih =>
    cases p with
    | zero =>
      by_cases h : hasEnergy u <;> simp [renumber, h, positiveBefore]
    | succ p =>
      by_cases h : hasEnergy u
      · simp only [renumber, h, if_true, List.getElem?_cons_succ, ih, positiveBefore,
          List.take_succ_cons, List.filter_cons, List.length_cons]
        congr 1
        funext v
        split
        · congr 1
          push_cast
          ring
        · rfl
      · simp [renumber, h, ih, positiveBefore, List.filter_cons]

theorem positiveFrom_getElem? (fUnit : List AliJetUnitArray) (ii I q : Nat)
    (h : (positiveFrom ii fUnit)[I]? = some q) :
    ∃ p u, q = ii + p ∧ fUnit[p]? = some u ∧ hasEnergy u = true ∧ positiveBefore fUnit p = I := by
  induction fUnit generalizing ii I with
  | nil => simp [positiveFrom_nil] at h
  | cons v rest ih =>
    rw [positiveFrom_cons] at h
    by_cases hv : hasEnergy v
    · simp only [hv, if_true] at h
      cases I with
      | zero =>
        simp at h
        exact ⟨0, v, by omega, by simp, hv, by simp [positiveBefore]⟩
      | succ I =>
        simp only [List.getElem?_cons_succ] at h
        obtain ⟨p, u, h1, h2, h3, h4⟩ := ih (ii + 1) I h
        refine ⟨p + 1, u, by omega, by simpa using h2, h3, ?_⟩
        simp only [positiveBefore] at h4 ⊢
        simp [List.filter_cons, hv, h4]
    · simp only [hv] at h
      obtain ⟨p, u, h1, h2, h3, h4⟩ := ih (ii + 1) I h
      refine ⟨p + 1, u, by omega, by simpa using h2, h3, ?_⟩
      simp only [positiveBefore] at h4 ⊢
      simp [List.filter_cons, hv, h4]

/-! ## FindJets as a whole -/

theorem FindJets_noUnitArray (fj : FastJet) (s : AliFastJetFinder)
    (hbg : s.fHeader.fBGMode = false) (hu : s.fReader.fUnitArray = none) :
    FindJets fj s = s := by
  simp [FindJets, hbg, hu]

theorem FindJets_BG (fj : FastJet) (s : AliFastJetFinder) (hbg : s.fHeader.fBGMode = true) :
    FindJets fj s =
      { s with
        fHeader :=
          { s.fHeader with
            fComment := commentBG fj (jetDefOf s.fHeader) (areaDefOf s.fHeader)
              (clusterSequenceOf fj s) },
        fAODjets := s.fAODjets ++
          (engineJets fj s).map (fun jet => AliAODJet.ofMomentum jet.px jet.py jet.pz jet.E) } := by
  simp [FindJets, hbg, jetLoopBG_eq, engineJets, clusterSequenceOf]

theorem FindJets_noBG (fj : FastJet) (s : AliFastJetFinder) (fUnit : List AliJetUnitArray)
    (hbg : s.fHeader.fBGMode = false) (hu : s.fReader.fUnitArray = some fUnit) :
    FindJets fj s =
      { s with
        fHeader :=
          { s.fHeader with
            fComment := commentNoBG fj (jetDefOf s.fHeader) (clusterSequenceOf fj s) },
        fReader :=
          { fUnitArray :=
              some (if noConstituent (clusterSequenceOf fj s) (engineJets fj s) then fUnit
                else renumber 0 fUnit) },
        fAODjets := s.fAODjets ++
          (engineJets fj s).map (outputJetNoBG (clusterSequenceOf fj s) (positiveUnits fUnit)) } := by
  simp [FindJets, hbg, hu, jetLoopNoBG_fst, jetLoopNoBG_snd, engineJets, clusterSequenceOf]

theorem addedJets_BG (fj : FastJet) (s : AliFastJetFinder) (hbg : s.fHeader.fBGMode = true) :
    addedJets fj s =
      (engineJets fj s).map (fun jet => AliAODJet.ofMomentum jet.px jet.py jet.pz jet.E) := by
  simp [addedJets, FindJets_BG fj s hbg]

theorem addedJets_noBG (fj : FastJet) (s : AliFastJetFinder) (fUnit : List AliJetUnitArray)
    (hbg : s.fHeader.fBGMode = false) (hu : s.fReader.fUnitArray = some fUnit) :
    addedJets fj s =
      (engineJets fj s).map (outputJetNoBG (clusterSequenceOf fj s) (positiveUnits fUnit)) := by
  simp [addedJets, FindJets_noBG fj s fUnit hbg hu]

theorem unitOfIndex_isSome (P : List Nat) (k : Int) :
    (unitOfIndex P k).isSome = inRange P k := by
  unfold unitOfIndex inRange
  by_cases h : (0 : Int) ≤ k
  · by_cases h2 : k < (P.length : Int)
    · have h3 : k.toNat < P.length := by omega
      simp [h, h2, List.getElem?_eq_getElem h3]
    · have h3 : P.length ≤ k.toNat := by omega
      simp [h, h2, List.getElem?_eq_none h3]
  · simp [h]

theorem length_filterMap_eq (f : PseudoJet → Option Nat) (l : List PseudoJet) :
    (l.filterMap f).length = (l.filter (fun c => (f c).isSome)).length := by
  induction l with
  | nil => rfl
  | cons c rest ih =>
    cases h : f c <;> simp [List.filterMap_cons, List.filter_cons, h, ih]

/-! ## The reset loop -/

theorem resetUnit_isReset (u : AliJetUnitArray) : IsReset (resetUnit u) := by
  simp [IsReset, resetUnit]

theorem length_resetLoop (ref : List Nat) (fUnit : List AliJetUnitArray) :
    (resetLoop ref fUnit).length = fUnit.length := by
  induction ref generalizing fUnit with
  | nil => rfl
  | cons p rest ih => simp [resetLoop, ih]

theorem getElem?_resetLoop (ref : List Nat) (fUnit : List AliJetUnitArray) (p : Nat) :
    (resetLoop ref fUnit)[p]? =
      if p ∈ ref then fUnit[p]?.map resetUnit else fUnit[p]? := by
  induction ref generalizing fUnit with
  | nil => simp [resetLoop]
  | cons q rest ih =>
    simp only [resetLoop, ih, List.getElem?_modify, List.mem_cons]
    by_cases hq : q = p
    · subst hq
      cases h : fUnit[q]? <;> by_cases hr : q ∈ rest <;> simp [hr, resetUnit]
    · have hq2 : ¬ p = q := fun e => hq e.symm
      cases h : fUnit[p]? <;> by_cases hr : p ∈ rest <;> simp [hr, hq, hq2]

theorem FindJets_noBG_units (fj : FastJet) (s : AliFastJetFinder)
    (fUnit : List AliJetUnitArray) (hbg : s.fHeader.fBGMode = false)
    (hu : s.fReader.fUnitArray = some fUnit) :
    ∃ fUnit2, (FindJets fj s).fReader.fUnitArray = some fUnit2 ∧
      fUnit2.length = fUnit.length ∧
      ∀ (p : Nat) (u : AliJetUnitArray), fUnit[p]? = some u → u.fUnitEnergy ≤ 0 →
        fUnit2[p]? = some u := by
  rw [FindJets_noBG fj s fUnit hbg hu]
  refine ⟨_, rfl, ?_, ?_⟩
  · split
    · rfl
    · exact length_renumber 0 fUnit
  · intro p u hp hle
    have he : ¬ u.fUnitEnergy > 0 := not_lt.mpr hle
    split
    · exact hp
    · simp [getElem?_renumber, hp, hasEnergy, he]

/-! ## Claims on FindJets -/

/-- C1, as amended. In `FindJets` without background subtraction, for every
output jet and every constituent of it (the `i`-th, say) whose user index `I` is
in range, the one unit attached to the jet for that constituent is entry `I` of
the list of positive-energy units: the jet's track references are those
attached for the constituents before the `i`-th, then that unit, then those
attached for the constituents after it. The unit sits at a position `p` of the
unit array that holds a unit of positive energy and has exactly `I`
positive-energy units before it; `p` is position `I` of the unit array itself
exactly when every unit before `p` has positive energy. -/
theorem C1_attached_unit_is_Ith_positive (fj : FastJet) (s : AliFastJetFinder)
    (fUnit : List AliJetUnitArray) (hbg : s.fHeader.fBGMode = false)
    (hu : s.fReader.fUnitArray = some fUnit) (j : Nat) (jet : PseudoJet)
    (hj : (engineJets fj s)[j]? = some jet) (i : Nat) (c : PseudoJet)
    (hc : ((clusterSequenceOf fj s).constituents jet)[i]? = some c) (I : Nat)
    (hI : c.user_index = (I : Int)) (hlt : I < (positiveUnits fUnit).length) :
    ∃ aod p u, (addedJets fj s)[j]? = some aod ∧ (positiveUnits fUnit)[I]? = some p ∧
      aod.fRefTracks =
        (((clusterSequenceOf fj s).constituents jet).take i).filterMap
            (fun d => unitOfIndex (positiveUnits fUnit) d.user_index) ++
          p :: (((clusterSequenceOf fj s).constituents jet).drop (i + 1)).filterMap
            (fun d => unitOfIndex (positiveUnits fUnit) d.user_index) ∧
      fUnit[p]? = some u ∧ u.fUnitEnergy > 0 ∧
      positiveBefore fUnit p = I ∧
      (p = I ↔ ∀ (q : Nat) (v : AliJetUnitArray), q < p → fUnit[q]? = some v →
        v.fUnitEnergy > 0) := by
  have hP : (positiveUnits fUnit)[I]? = some ((positiveUnits fUnit)[I]) :=
    List.getElem?_eq_getElem hlt
  obtain ⟨p, u, h1, h2, h3, h4⟩ := positiveFrom_getElem? fUnit 0 I _ hP
  have hp : (positiveUnits fUnit)[I] = p := by omega
  rw [hp] at hP
  have hlen : p < fUnit.length := by
    rcases List.getElem?_eq_some.mp h2 with ⟨hl, _⟩
    exact hl
  have htake : (fUnit.take p).length = p := by
    simp
    omega
  refine ⟨outputJetNoBG (clusterSequenceOf fj s) (positiveUnits fUnit) jet, p, u, ?_, hP, ?_,
    h2, ?_, h4, ?_, ?_⟩
  · rw [addedJets_noBG fj s fUnit hbg hu, List.getElem?_map, hj]
    rfl
  · obtain ⟨hi, hci⟩ := List.getElem?_eq_some.mp hc
    have hsplit : (clusterSequenceOf fj s).constituents jet =
        ((clusterSequenceOf fj s).constituents jet).take i ++
          c :: ((clusterSequenceOf fj s).constituents jet).drop (i + 1) := by
      rw [← hci, ← List.drop_eq_getElem_cons hi, List.take_append_drop]
    have hlook : unitOfIndex (positiveUnits fUnit) c.user_index = some p := by
      simp [unitOfIndex, hI, hP]
    show ((clusterSequenceOf fj s).constituents jet).filterMap
        (fun d => unitOfIndex (positiveUnits fUnit) d.user_index) = _
    conv_lhs => rw [hsplit]
    rw [List.filterMap_append, List.filterMap_cons, hlook]
  · simpa [hasEnergy] using h3
  · intro hpI
    have hfull : ((fUnit.take p).filter hasEnergy).length = (fUnit.take p).length := by
      have h5 : ((fUnit.take p).filter hasEnergy).length = I := h4
      omega
    have hall := List.filter_length_eq_length.mp hfull
    intro q v hq hqv
    have hmem : v ∈ fUnit.take p := by
      rw [List.mem_iff_getElem?]
      exact ⟨q, by rw [List.getElem?_take, if_pos hq]; exact hqv⟩
    simpa [hasEnergy] using hall v hmem
  · intro hall
    have hfil : ∀ v ∈ fUnit.take p, hasEnergy v = true := by
      intro v hv
      obtain ⟨q, hq, hqv⟩ := List.getElem_of_mem hv
      have hq2 : q < p := by omega
      have hget : fUnit[q]? = some v := by
        rw [List.getElem_take] at hqv
        rw [List.getElem?_eq_some]
        exact ⟨by omega, hqv⟩
      simpa [hasEnergy] using hall q v hq2 hget
    have hfull := List.filter_length_eq_length.mpr hfil
    have h5 : ((fUnit.take p).filter hasEnergy).length = I := h4
    omega

/-- C1, witness of the amended statement: units of energy 0, 5 and 3, one jet
whose constituents have user indices 0 and 1. For the second constituent the
unit at position 2 is attached, after the unit at position 1 attached for the
first. -/
theorem C1_attached_unit_is_Ith_positive_witness :
    ∃ aod p u,
      (addedJets (exFastJet [exPseudoJet 100] [exPseudoJet 0, exPseudoJet 1])
        (exFinder false (some [exUnit 0 7, exUnit 5 8, exUnit 3 9])))[0]? = some aod ∧
      (positiveUnits [exUnit 0 7, exUnit 5 8, exUnit 3 9])[1]? = some p ∧
      aod.fRefTracks = [1, 2] ∧ p = 2 ∧
      [exUnit 0 7, exUnit 5 8, exUnit 3 9][p]? = some u ∧ u.fUnitEnergy > 0 ∧
      positiveBefore [exUnit 0 7, exUnit 5 8, exUnit 3 9] p = 1 ∧ p ≠ 1 := by
  obtain ⟨aod, p, u, h1, h2, h3, h4, h5, h6, _⟩ :=
    C1_attached_unit_is_Ith_positive (exFastJet [exPseudoJet 100] [exPseudoJet 0, exPseudoJet 1])
      (exFinder false (some [exUnit 0 7, exUnit 5 8, exUnit 3 9]))
      [exUnit 0 7, exUnit 5 8, exUnit 3 9] rfl rfl 0 (exPseudoJet 100) rfl 1 (exPseudoJet 1)
      rfl 1 rfl (by decide)
  have hp : p = 2 := by
    have h : (positiveUnits [exUnit 0 7, exUnit 5 8, exUnit 3 9])[1]? = some 2 := by decide
    rw [h] at h2
    exact (Option.some.inj h2).symm
  subst hp
  refine ⟨aod, 2, u, h1, h2, ?_, rfl, h4, h5, h6, by decide⟩
  rw [h3]
  decide

/-- C1, counterexample to the claim as written. The unit array holds a unit of
energy 0 at position 0 and a unit of energy 5 at position 1; the engine returns
one jet whose single constituent has user index 0. The unit attached to the
output jet is the one at position 1, and the unit at position 0 is not attached. -/
theorem C1_counterexample :
    (engineJets (exFastJet [exPseudoJet 100] [exPseudoJet 0])
        (exFinder false (some [exUnit 0 7, exUnit 5 8]))).map
      (fun jet => ((clusterSequenceOf (exFastJet [exPseudoJet 100] [exPseudoJet 0])
        (exFinder false (some [exUnit 0 7, exUnit 5 8]))).constituents jet).map
          (fun c => c.user_index)) = [[0]] ∧
    (addedJets (exFastJet [exPseudoJet 100] [exPseudoJet 0])
        (exFinder false (some [exUnit 0 7, exUnit 5 8]))).map (fun aod => aod.fRefTracks)
      = [[1]] ∧
    ¬ ∀ aod ∈ addedJets (exFastJet [exPseudoJet 100] [exPseudoJet 0])
        (exFinder false (some [exUnit 0 7, exUnit 5 8])), 0 ∈ aod.fRefTracks := by
  decide

/-- C2. For every event, `FindJets` appends exactly one output jet per jet the
clustering engine returns to it above `ptmin` (the background-subtracted jets
when `bgMode` is on, the inclusive jets when it is off; none when `FindJets`
returns before it builds the cluster sequence), in the engine's pt-sorted
order, each with the px, py, pz and E of the engine jet at the same position. -/
theorem C2_one_output_jet_per_returned_jet (fj : FastJet) (s : AliFastJetFinder) :
    (FindJets fj s).fAODjets = s.fAODjets ++ addedJets fj s ∧
      (addedJets fj s).length = (returnedJets fj s).length ∧
      (addedJets fj s).map (fun aod => (aod.px, aod.py, aod.pz, aod.E)) =
        (returnedJets fj s).map (fun jet => (jet.px, jet.py, jet.pz, jet.E)) := by
  by_cases hbg : s.fHeader.fBGMode = true
  · have hr : returnedJets fj s = engineJets fj s := by
      simp [returnedJets, engineJets, clusterSequenceOf, hbg]
    rw [hr, addedJets_BG fj s hbg]
    refine ⟨?_, by simp, ?_⟩
    · rw [FindJets_BG fj s hbg]
    · simp [AliAODJet.ofMomentum, Function.comp_def]
  · have hbg2 : s.fHeader.fBGMode = false := by simpa using hbg
    cases hu : s.fReader.fUnitArray with
    | none =>
      have hr : returnedJets fj s = [] := by simp [returnedJets, hbg2, hu]
      have ha : addedJets fj s = [] := by
        simp [addedJets, FindJets_noUnitArray fj s hbg2 hu]
      rw [hr, ha, FindJets_noUnitArray fj s hbg2 hu]
      simp
    | some fUnit =>
      have hr : returnedJets fj s = engineJets fj s := by
        simp [returnedJets, engineJets, clusterSequenceOf, hbg2, hu]
      rw [hr, addedJets_noBG fj s fUnit hbg2 hu]
      refine ⟨?_, by simp, ?_⟩
      · rw [FindJets_noBG fj s fUnit hbg2 hu]
      · simp [outputJetNoBG, Function.comp_def]

/-- C3, as amended. When the unit array is missing and background subtraction
is off, `FindJets` returns early and leaves the whole state as it was: no output
jet is added, the header comment is not set, and the reader is untouched. -/
theorem C3_missing_unit_array_early_return (fj : FastJet) (s : AliFastJetFinder)
    (hbg : s.fHeader.fBGMode = false) (hu : s.fReader.fUnitArray = none) :
    FindJets fj s = s ∧ (FindJets fj s).fAODjets = s.fAODjets ∧
      (FindJets fj s).fHeader.fComment = s.fHeader.fComment ∧
      (FindJets fj s).fReader = s.fReader := by
  rw [FindJets_noUnitArray fj s hbg hu]
  exact ⟨rfl, rfl, rfl, rfl⟩

/-- C3, witness of the amended statement. -/
theorem C3_missing_unit_array_early_return_witness :
    ((exFinder false none).fHeader.fBGMode = false ∧
      (exFinder false none).fReader.fUnitArray = none) ∧
    (FindJets (exFastJet [exPseudoJet 100] []) (exFinder false none) = exFinder false none ∧
      (FindJets (exFastJet [exPseudoJet 100] []) (exFinder false none)).fAODjets =
        (exFinder false none).fAODjets ∧
      (FindJets (exFastJet [exPseudoJet 100] []) (exFinder false none)).fHeader.fComment =
        (exFinder false none).fHeader.fComment ∧
      (FindJets (exFastJet [exPseudoJet 100] []) (exFinder false none)).fReader =
        (exFinder false none).fReader) :=
  ⟨⟨rfl, rfl⟩, C3_missing_unit_array_early_return (exFastJet [exPseudoJet 100] [])
    (exFinder false none) rfl rfl⟩

/-- C3, counterexample to the claim as written. The unit array is missing and
background subtraction is on: `FindJets` does not return early, it adds one
output jet and sets the header comment. -/
theorem C3_counterexample :
    (exFinder true none).fReader.fUnitArray = none ∧
    (exFinder true none).fAODjets = [] ∧
    (FindJets (exFastJet [exPseudoJet 100] []) (exFinder true none)).fAODjets =
      [AliAODJet.ofMomentum 1 2 3 4] ∧
    (exFinder true none).fHeader.fComment = "" ∧
    (FindJets (exFastJet [exPseudoJet 100] []) (exFinder true none)).fHeader.fComment ≠ "" := by
  decide

/-- C6. In `FindJets` without background subtraction, with `P` the list of
positive-energy units in unit-array order, the track references of every output
jet are, in constituent order, `P[k]` for each constituent user index `k` with
`0 ≤ k < |P|`; an index out of that range attaches nothing, a repeated index
attaches its unit again, and the number of attached tracks is the number of
constituents with an in-range index. -/
theorem C6_track_references (fj : FastJet) (s : AliFastJetFinder)
    (fUnit : List AliJetUnitArray) (hbg : s.fHeader.fBGMode = false)
    (hu : s.fReader.fUnitArray = some fUnit) :
    (addedJets fj s).map (fun aod => aod.fRefTracks) =
        (engineJets fj s).map (fun jet =>
          (((clusterSequenceOf fj s).constituents jet).map (fun c => c.user_index)).filterMap
            (fun k => if 0 ≤ k ∧ k < ((positiveUnits fUnit).length : Int)
              then (positiveUnits fUnit)[k.toNat]? else none)) ∧
      (addedJets fj s).map (fun aod => aod.fRefTracks.length) =
        (engineJets fj s).map (fun jet =>
          ((((clusterSequenceOf fj s).constituents jet).map (fun c => c.user_index)).filter
            (fun k => decide (0 ≤ k ∧ k < ((positiveUnits fUnit).length : Int)))).length) := by
  have key : ∀ k : Int, (if 0 ≤ k ∧ k < ((positiveUnits fUnit).length : Int)
      then (positiveUnits fUnit)[k.toNat]? else none) = unitOfIndex (positiveUnits fUnit) k := by
    intro k
    unfold unitOfIndex
    by_cases h1 : (0 : Int) ≤ k
    · by_cases h2 : k < ((positiveUnits fUnit).length : Int)
      · simp [h1, h2]
      · have h3 : (positiveUnits fUnit).length ≤ k.toNat := by omega
        simp [h1, h2, List.getElem?_eq_none h3]
    · simp [h1]
  have key2 : ∀ k : Int, decide (0 ≤ k ∧ k < ((positiveUnits fUnit).length : Int)) =
      (unitOfIndex (positiveUnits fUnit) k).isSome := by
    intro k
    rw [unitOfIndex_isSome]
    simp [inRange]
  rw [addedJets_noBG fj s fUnit hbg hu]
  constructor
  · simp only [List.map_map]
    apply List.map_congr_left
    intro jet _
    simp [outputJetNoBG, List.filterMap_map, Function.comp_def, key]
  · simp only [List.map_map]
    apply List.map_congr_left
    intro jet _
    simp only [Function.comp_def, outputJetNoBG, key2, List.filter_map, List.length_map]
    rw [length_filterMap_eq]

/-- C6, witness: units of energy 0, 5, -1 and 3, one jet whose constituents have
user indices 0, 1, 0, -1 and 5. The attached tracks are the units at positions
1, 3 and 1. -/
theorem C6_track_references_witness :
    (addedJets (exFastJet [exPseudoJet 100]
        [exPseudoJet 0, exPseudoJet 1, exPseudoJet 0, exPseudoJet (-1), exPseudoJet 5])
      (exFinder false (some [exUnit 0 7, exUnit 5 8, exUnit (-1) 9, exUnit 3 10]))).map
        (fun aod => aod.fRefTracks) = [[1, 3, 1]] :=
  ((C6_track_references (exFastJet [exPseudoJet 100]
        [exPseudoJet 0, exPseudoJet 1, exPseudoJet 0, exPseudoJet (-1), exPseudoJet 5])
      (exFinder false (some [exUnit 0 7, exUnit 5 8, exUnit (-1) 9, exUnit 3 10]))
      [exUnit 0 7, exUnit 5 8, exUnit (-1) 9, exUnit 3 10] rfl rfl).1).trans (by decide)

theorem noConstituent_eq_false (clust_seq : ClusterSequenceArea) (jets : List PseudoJet)
    (h : ∃ jet ∈ jets, clust_seq.constituents jet ≠ []) : noConstituent clust_seq jets = false := by
  obtain ⟨jet, hjet, hne⟩ := h
  cases hn : noConstituent clust_seq jets with
  | false => rfl
  | true =>
    unfold noConstituent at hn
    rw [List.all_eq_true] at hn
    have := hn jet hjet
    simp [List.isEmpty_iff] at this
    exact absurd this hne

theorem noConstituent_eq_true (clust_seq : ClusterSequenceArea) (jets : List PseudoJet)
    (h : ∀ jet ∈ jets, clust_seq.constituents jet = []) : noConstituent clust_seq jets = true := by
  unfold noConstituent
  rw [List.all_eq_true]
  intro jet hjet
  simp [h jet hjet]

/-- C7, as amended. After `FindJets` has run without background subtraction on a
present unit array, every unit with energy `≤ 0` is exactly as it was before.
If at least one of the jets the engine returned has a constituent, every unit
with energy `> 0` has its track ID equal to the number of positive-energy units
that precede it in the unit array, and is otherwise as before. If no returned
jet has a constituent (in particular when no jet is returned), every unit keeps
the track ID it had. -/
theorem C7_track_ID_is_positive_rank (fj : FastJet) (s : AliFastJetFinder)
    (fUnit : List AliJetUnitArray) (hbg : s.fHeader.fBGMode = false)
    (hu : s.fReader.fUnitArray = some fUnit) :
    ∃ fUnit2, (FindJets fj s).fReader.fUnitArray = some fUnit2 ∧
      fUnit2.length = fUnit.length ∧
      ∀ (p : Nat) (u : AliJetUnitArray), fUnit[p]? = some u → ∃ u2, fUnit2[p]? = some u2 ∧
        (u.fUnitEnergy ≤ 0 → u2 = u) ∧
        (u.fUnitEnergy > 0 →
          (∃ jet ∈ engineJets fj s, (clusterSequenceOf fj s).constituents jet ≠ []) →
          u2 = { u with fUnitTrackID := (positiveBefore fUnit p : Int) }) ∧
        ((∀ jet ∈ engineJets fj s, (clusterSequenceOf fj s).constituents jet = []) →
          u2 = u) := by
  rw [FindJets_noBG fj s fUnit hbg hu]
  refine ⟨_, rfl, ?_, ?_⟩
  · split
    · rfl
    · exact length_renumber 0 fUnit
  · intro p u hp
    by_cases hn : noConstituent (clusterSequenceOf fj s) (engineJets fj s) = true
    · refine ⟨u, by simp [hn, hp], fun _ => rfl, ?_, fun _ => rfl⟩
      intro _ hex
      rw [noConstituent_eq_false _ _ hex] at hn
      exact absurd hn (by decide)
    · by_cases he : u.fUnitEnergy > 0
      · refine ⟨{ u with fUnitTrackID := (positiveBefore fUnit p : Int) }, ?_, ?_, ?_, ?_⟩
        · simp [hn, getElem?_renumber, hp, hasEnergy, he]
        · intro hle
          exact absurd he (not_lt.mpr hle)
        · intro _ _
          rfl
        · intro hall
          exact absurd (noConstituent_eq_true _ _ hall) hn
      · refine ⟨u, ?_, fun _ => rfl, fun h => absurd h he, fun _ => rfl⟩
        simp [hn, getElem?_renumber, hp, hasEnergy, he]

/-- C7, witness of the amended statement: units of energy 0, 5 and 3, one jet
with one constituent. -/
theorem C7_track_ID_is_positive_rank_witness :
    ∃ fUnit2, (FindJets (exFastJet [exPseudoJet 100] [exPseudoJet 0])
        (exFinder false (some [exUnit 0 7, exUnit 5 8, exUnit 3 9]))).fReader.fUnitArray =
          some fUnit2 ∧
      fUnit2.length = [exUnit 0 7, exUnit 5 8, exUnit 3 9].length ∧
      ∀ (p : Nat) (u : AliJetUnitArray), [exUnit 0 7, exUnit 5 8, exUnit 3 9][p]? = some u →
        ∃ u2, fUnit2[p]? = some u2 ∧
        (u.fUnitEnergy ≤ 0 → u2 = u) ∧
        (u.fUnitEnergy > 0 →
          (∃ jet ∈ engineJets (exFastJet [exPseudoJet 100] [exPseudoJet 0])
              (exFinder false (some [exUnit 0 7, exUnit 5 8, exUnit 3 9])),
            (clusterSequenceOf (exFastJet [exPseudoJet 100] [exPseudoJet 0])
              (exFinder false (some [exUnit 0 7, exUnit 5 8, exUnit 3 9]))).constituents jet
                ≠ []) →
          u2 = { u with fUnitTrackID :=
            (positiveBefore [exUnit 0 7, exUnit 5 8, exUnit 3 9] p : Int) }) ∧
        ((∀ jet ∈ engineJets (exFastJet [exPseudoJet 100] [exPseudoJet 0])
              (exFinder false (some [exUnit 0 7, exUnit 5 8, exUnit 3 9])),
            (clusterSequenceOf (exFastJet [exPseudoJet 100] [exPseudoJet 0])
              (exFinder false (some [exUnit 0 7, exUnit 5 8, exUnit 3 9]))).constituents jet
                = []) →
          u2 = u) :=
  C7_track_ID_is_positive_rank (exFastJet [exPseudoJet 100] [exPseudoJet 0])
    (exFinder false (some [exUnit 0 7, exUnit 5 8, exUnit 3 9]))
    [exUnit 0 7, exUnit 5 8, exUnit 3 9] rfl rfl

/-- C7, counterexample to the claim as written. The unit array holds one unit of
energy 5 with track ID 7 and the engine returns no jet: `FindJets` runs to its
end and the unit still has track ID 7, although no positive-energy unit
precedes it. -/
theorem C7_counterexample :
    (FindJets (exFastJet [] []) (exFinder false (some [exUnit 5 7]))).fReader.fUnitArray =
      some [exUnit 5 7] ∧
    (exUnit 5 7).fUnitEnergy > 0 ∧ (exUnit 5 7).fUnitTrackID = 7 ∧
    positiveBefore [exUnit 5 7] 0 = 0 := by
  decide

theorem FindJets_withAreaError (fj : FastJet) (g : PseudoJet → Double_t)
    (s : AliFastJetFinder) : FindJets (withAreaError fj g) s = FindJets fj s := by
  by_cases hbg : s.fHeader.fBGMode = true
  · rw [FindJets_BG _ s hbg, FindJets_BG _ s hbg]
    rfl
  · have hbg2 : s.fHeader.fBGMode = false := by simpa using hbg
    cases hu : s.fReader.fUnitArray with
    | none => rw [FindJets_noUnitArray _ s hbg2 hu, FindJets_noUnitArray _ s hbg2 hu]
    | some fUnit =>
      rw [FindJets_noBG _ s fUnit hbg2 hu, FindJets_noBG _ s fUnit hbg2 hu]
      rfl

/-- C9, as amended. In `FindJets` without background subtraction every output
jet's effective area equals `clust_seq.area(jet)` and the value stored after it
is 0. In both modes the result of `FindJets` does not depend on what
`clust_seq.area_error` returns: the area uncertainty is carried into no output
jet. -/
theorem C9_area_carried_error_not (fj : FastJet) (s : AliFastJetFinder) :
    (∀ g : PseudoJet → Double_t, FindJets (withAreaError fj g) s = FindJets fj s) ∧
      ∀ fUnit, s.fHeader.fBGMode = false → s.fReader.fUnitArray = some fUnit →
        (addedJets fj s).map (fun aod => aod.fEffectiveArea) =
          (engineJets fj s).map (fun jet => ((clusterSequenceOf fj s).area jet, 0)) := by
  refine ⟨fun g => FindJets_withAreaError fj g s, ?_⟩
  intro fUnit hbg hu
  rw [addedJets_noBG fj s fUnit hbg hu]
  simp [outputJetNoBG, Function.comp_def]

/-- C9, witness of the amended statement: one unit, one jet of area 2. -/
theorem C9_area_carried_error_not_witness :
    (addedJets (exFastJet [exPseudoJet 100] [exPseudoJet 0])
        (exFinder false (some [exUnit 5 7]))).map (fun aod => aod.fEffectiveArea) =
      (engineJets (exFastJet [exPseudoJet 100] [exPseudoJet 0])
        (exFinder false (some [exUnit 5 7]))).map
          (fun jet => ((clusterSequenceOf (exFastJet [exPseudoJet 100] [exPseudoJet 0])
            (exFinder false (some [exUnit 5 7]))).area jet, 0)) :=
  (C9_area_carried_error_not (exFastJet [exPseudoJet 100] [exPseudoJet 0])
    (exFinder false (some [exUnit 5 7]))).2 [exUnit 5 7] rfl rfl

/-- C9, counterexample to the claim as written. The engine reports area 2 and
area error 1 for its one jet. Without background subtraction the output jet
stores the area 2 followed by 0, not by the area error 1; with background
subtraction the output jet stores neither. -/
theorem C9_counterexample :
    (engineJets (exFastJet [exPseudoJet 100] []) (exFinder false (some []))).map
      (fun jet => ((clusterSequenceOf (exFastJet [exPseudoJet 100] [])
          (exFinder false (some []))).area jet,
        (clusterSequenceOf (exFastJet [exPseudoJet 100] [])
          (exFinder false (some []))).area_error jet)) = [(2, 1)] ∧
    (addedJets (exFastJet [exPseudoJet 100] []) (exFinder false (some []))).map
      (fun aod => aod.fEffectiveArea) = [(2, 0)] ∧
    (addedJets (exFastJet [exPseudoJet 100] []) (exFinder true (some []))).map
      (fun aod => aod.fEffectiveArea) = [(0, 0)] := by
  decide

/-! ## Claims on ProcessEvent2 -/

theorem FindJets_fAODEvBkg (fj : FastJet) (s : AliFastJetFinder) :
    (FindJets fj s).fAODEvBkg = s.fAODEvBkg := by
  by_cases hbg : s.fHeader.fBGMode = true
  · rw [FindJets_BG _ s hbg]
  · have hbg2 : s.fHeader.fBGMode = false := by simpa using hbg
    cases hu : s.fReader.fUnitArray with
    | none => rw [FindJets_noUnitArray _ s hbg2 hu]
    | some fUnit => rw [FindJets_noBG _ s fUnit hbg2 hu]

theorem FindJets_units (fj : FastJet) (s : AliFastJetFinder) (fUnit : List AliJetUnitArray)
    (hu : s.fReader.fUnitArray = some fUnit) :
    ∃ fUnit1, (FindJets fj s).fReader.fUnitArray = some fUnit1 ∧
      fUnit1.length = fUnit.length ∧
      ∀ (p : Nat) (u : AliJetUnitArray), fUnit[p]? = some u → u.fUnitEnergy ≤ 0 →
        fUnit1[p]? = some u := by
  by_cases hbg : s.fHeader.fBGMode = true
  · rw [FindJets_BG _ s hbg]
    exact ⟨fUnit, hu, rfl, fun p u hp _ => hp⟩
  · have hbg2 : s.fHeader.fBGMode = false := by simpa using hbg
    obtain ⟨fUnit2, h1, h2, h3⟩ := FindJets_noBG_units fj s fUnit hbg2 hu
    exact ⟨fUnit2, h1, h2, h3⟩

theorem ProcessEvent2_ok (c : Collaborators) (s : AliFastJetFinder)
    (hok : (c.ExecTasks s.fReader false).ok = true) :
    ProcessEvent2 c s =
      (true, ({ afterFindJets c s with
        fAODEvBkg := ((((afterFindJets c s).fAODEvBkg.SetBackground 0
            (c.BkgFastJet (bkgAfterFindJets c s))).SetBackground 1
            (c.BkgChargedFastJet (bkgAfterFindJets c s))).SetBackground 2
            (c.BkgFastJetCone (bkgAfterFindJets c s) (afterFindJets c s).fAODjets)).SetBackground 3
            (c.BkgRemoveJetLeading (bkgAfterFindJets c s) (afterFindJets c s).fAODjets),
        fReader := { (afterFindJets c s).fReader with
          fUnitArray := (afterFindJets c s).fReader.fUnitArray.map
            (resetLoop (c.ExecTasks s.fReader false).ref) } }).Reset) := by
  simp [ProcessEvent2, hok]

theorem ProcessEvent2_fail (c : Collaborators) (s : AliFastJetFinder)
    (hok : (c.ExecTasks s.fReader false).ok = false) :
    ProcessEvent2 c s = (false, { s with fReader := (c.ExecTasks s.fReader false).reader }) := by
  simp [ProcessEvent2, hok]

/-- C4, as amended. After `ProcessEvent2` returns true, every unit that the
reference array filled by `ExecTasks` refers to is in its reset state. If, when
`ExecTasks` returned, every unit outside the reference array was already in its
reset state, then every unit of the buffer is in its reset state. A unit outside
the reference array is not reset by `ProcessEvent2`. -/
theorem C4_referenced_units_reset (c : Collaborators) (s : AliFastJetFinder)
    (hret : (ProcessEvent2 c s).1 = true) (fUnit : List AliJetUnitArray)
    (hu : (c.ExecTasks s.fReader false).reader.fUnitArray = some fUnit) :
    ∃ fUnit2, (ProcessEvent2 c s).2.fReader.fUnitArray = some fUnit2 ∧
      fUnit2.length = fUnit.length ∧
      (∀ p ∈ (c.ExecTasks s.fReader false).ref, ∀ u, fUnit2[p]? = some u → IsReset u) ∧
      ((∀ (p : Nat) (u : AliJetUnitArray), p ∉ (c.ExecTasks s.fReader false).ref →
          fUnit[p]? = some u → IsReset u) →
        ∀ u ∈ fUnit2, IsReset u) := by
  have hok : (c.ExecTasks s.fReader false).ok = true := by
    cases h : (c.ExecTasks s.fReader false).ok with
    | true => rfl
    | false =>
      rw [ProcessEvent2_fail c s h] at hret
      simp at hret
  obtain ⟨fUnit1, h1, h2, h3⟩ := FindJets_units c.fj
    { s with fReader := (c.ExecTasks s.fReader false).reader,
             fInputFJ := c.FillInput s.fHeader (c.ExecTasks s.fReader false).reader s.fInputFJ }
    fUnit hu
  have h1b : (afterFindJets c s).fReader.fUnitArray = some fUnit1 := h1
  have hfinal : (ProcessEvent2 c s).2.fReader.fUnitArray =
      some (resetLoop (c.ExecTasks s.fReader false).ref fUnit1) := by
    rw [ProcessEvent2_ok c s hok]
    simp [AliFastJetFinder.Reset, h1b]
  have hreset : ∀ p ∈ (c.ExecTasks s.fReader false).ref, ∀ u,
      (resetLoop (c.ExecTasks s.fReader false).ref fUnit1)[p]? = some u → IsReset u := by
    intro p hp u hget
    rw [getElem?_resetLoop, if_pos hp] at hget
    cases hq : fUnit1[p]? with
    | none => simp [hq] at hget
    | some v =>
      simp [hq] at hget
      rw [← hget]
      exact resetUnit_isReset v
  refine ⟨_, hfinal, ?_, hreset, ?_⟩
  · rw [length_resetLoop, h2]
  · intro hout u hmem
    obtain ⟨p, hp, hpu⟩ := List.getElem_of_mem hmem
    have hget : (resetLoop (c.ExecTasks s.fReader false).ref fUnit1)[p]? = some u := by
      rw [List.getElem?_eq_some]
      exact ⟨hp, hpu⟩
    by_cases hin : p ∈ (c.ExecTasks s.fReader false).ref
    · exact hreset p hin u hget
    · rw [getElem?_resetLoop, if_neg hin] at hget
      have hlen : p < fUnit.length := by
        rw [length_resetLoop, h2] at hp
        exact hp
      have hv : fUnit[p]? = some fUnit[p] := List.getElem?_eq_getElem hlen
      have hr : IsReset fUnit[p] := hout p _ hin hv
      have hle : (fUnit[p]).fUnitEnergy ≤ 0 := le_of_eq hr.2.1
      have := h3 p _ hv hle
      rw [this] at hget
      cases hget
      exact hr

/-- C4, witness of the amended statement: the unit at position 1 is referenced,
the unit at position 0 is not; `ProcessEvent2` returns true. -/
theorem C4_referenced_units_reset_witness :
    ∃ fUnit2, (ProcessEvent2 (exCollaborators true [1] [exPseudoJet 100] [exPseudoJet 0])
        (exFinder false (some [resetUnit (exUnit 0 0), exUnit 5 7]))).2.fReader.fUnitArray =
          some fUnit2 ∧
      fUnit2.length = [resetUnit (exUnit 0 0), exUnit 5 7].length ∧
      (∀ p ∈ ((exCollaborators true [1] [exPseudoJet 100] [exPseudoJet 0]).ExecTasks
          (exFinder false (some [resetUnit (exUnit 0 0), exUnit 5 7])).fReader false).ref,
        ∀ u, fUnit2[p]? = some u → IsReset u) ∧
      ((∀ (p : Nat) (u : AliJetUnitArray),
          p ∉ ((exCollaborators true [1] [exPseudoJet 100] [exPseudoJet 0]).ExecTasks
            (exFinder false (some [resetUnit (exUnit 0 0), exUnit 5 7])).fReader false).ref →
          [resetUnit (exUnit 0 0), exUnit 5 7][p]? = some u → IsReset u) →
        ∀ u ∈ fUnit2, IsReset u) :=
  C4_referenced_units_reset (exCollaborators true [1] [exPseudoJet 100] [exPseudoJet 0])
    (exFinder false (some [resetUnit (exUnit 0 0), exUnit 5 7])) (by decide)
    [resetUnit (exUnit 0 0), exUnit 5 7] rfl

/-- C4, counterexample to the claim as written. `ExecTasks` succeeds with an
empty reference array while the unit buffer holds one unit of energy 5:
`ProcessEvent2` returns true and that unit is left as it was, with energy 5,
not in its reset state. -/
theorem C4_counterexample :
    (ProcessEvent2 (exCollaborators true [] [] []) (exFinder false (some [exUnit 5 7]))).1
      = true ∧
    (ProcessEvent2 (exCollaborators true [] [] [])
      (exFinder false (some [exUnit 5 7]))).2.fReader.fUnitArray = some [exUnit 5 7] ∧
    ¬ IsReset (exUnit 5 7) := by
  decide

/-- C5. Whenever `ExecTasks` succeeds, `ProcessEvent2` leaves in the event
background object slot 0 = `BkgFastJet()`, slot 1 = `BkgChargedFastJet()`,
slot 2 = `BkgFastJetCone(jets)` and slot 3 = `BkgRemoveJetLeading(jets)`, where
the estimators see the header, reader and input as `FindJets` left them and
`jets` is the finder's jet list as this event's `FindJets` call left it; no
other slot is written, and the jet list is reset afterwards. -/
theorem C5_four_background_scalars (c : Collaborators) (s : AliFastJetFinder)
    (hok : (c.ExecTasks s.fReader false).ok = true) :
    afterFindJets c s = FindJets c.fj
        { s with fReader := (c.ExecTasks s.fReader false).reader,
                 fInputFJ := c.FillInput s.fHeader (c.ExecTasks s.fReader false).reader
                   s.fInputFJ } ∧
      bkgAfterFindJets c s =
        { fHeader := (afterFindJets c s).fHeader, fReader := (afterFindJets c s).fReader,
          fInputFJ := (afterFindJets c s).fInputFJ } ∧
      (ProcessEvent2 c s).2.fAODEvBkg.fBackground 0 = c.BkgFastJet (bkgAfterFindJets c s) ∧
      (ProcessEvent2 c s).2.fAODEvBkg.fBackground 1 =
        c.BkgChargedFastJet (bkgAfterFindJets c s) ∧
      (ProcessEvent2 c s).2.fAODEvBkg.fBackground 2 =
        c.BkgFastJetCone (bkgAfterFindJets c s) (afterFindJets c s).fAODjets ∧
      (ProcessEvent2 c s).2.fAODEvBkg.fBackground 3 =
        c.BkgRemoveJetLeading (bkgAfterFindJets c s) (afterFindJets c s).fAODjets ∧
      (∀ k, 4 ≤ k → (ProcessEvent2 c s).2.fAODEvBkg.fBackground k = s.fAODEvBkg.fBackground k) ∧
      (ProcessEvent2 c s).2.fAODjets = [] := by
  have hbk : (afterFindJets c s).fAODEvBkg = s.fAODEvBkg := by
    unfold afterFindJets
    rw [FindJets_fAODEvBkg]
  rw [ProcessEvent2_ok c s hok]
  refine ⟨rfl, rfl, ?_, ?_, ?_, ?_, ?_, rfl⟩
  · simp [AliFastJetFinder.Reset, AliAODPWG4JetEventBackground.SetBackground]
  · simp [AliFastJetFinder.Reset, AliAODPWG4JetEventBackground.SetBackground]
  · simp [AliFastJetFinder.Reset, AliAODPWG4JetEventBackground.SetBackground]
  · simp [AliFastJetFinder.Reset, AliAODPWG4JetEventBackground.SetBackground]
  · intro k hk
    have h0 : k ≠ 0 := by omega
    have h1 : k ≠ 1 := by omega
    have h2 : k ≠ 2 := by omega
    have h3 : k ≠ 3 := by omega
    simp [AliFastJetFinder.Reset, AliAODPWG4JetEventBackground.SetBackground, h0, h1, h2, h3,
      hbk]

/-- C5, witness: `ExecTasks` succeeds, the engine returns one jet; the four
slots hold 11, 12, 1 (the number of jets) and 14, and slot 4 still holds 0. -/
theorem C5_four_background_scalars_witness :
    ((exCollaborators true [0] [exPseudoJet 100] [exPseudoJet 0]).ExecTasks
        (exFinder false (some [exUnit 5 7])).fReader false).ok = true ∧
    (ProcessEvent2 (exCollaborators true [0] [exPseudoJet 100] [exPseudoJet 0])
      (exFinder false (some [exUnit 5 7]))).2.fAODEvBkg.fBackground 2 = 1 ∧
    (ProcessEvent2 (exCollaborators true [0] [exPseudoJet 100] [exPseudoJet 0])
      (exFinder false (some [exUnit 5 7]))).2.fAODEvBkg.fBackground 4 = 0 :=
  ⟨rfl,
   ((C5_four_background_scalars (exCollaborators true [0] [exPseudoJet 100] [exPseudoJet 0])
      (exFinder false (some [exUnit 5 7])) rfl).2.2.2.2.1).trans (by decide),
   ((C5_four_background_scalars (exCollaborators true [0] [exPseudoJet 100] [exPseudoJet 0])
      (exFinder false (some [exUnit 5 7])) rfl).2.2.2.2.2.2.1 4 (by decide)).trans rfl⟩

/-- C8. `ProcessEvent2` returns false exactly when the reader's `ExecTasks`
returns false. In that case nothing after the `ExecTasks` call is executed: the
state is the one at entry with the reader as `ExecTasks` left it, so the output
jets, the background slots, the input particles and the header are unchanged
and the units are as `ExecTasks` left them. In every other case it returns
true, whether or not the unit array is present. -/
theorem C8_false_iff_ExecTasks_fails (c : Collaborators) (s : AliFastJetFinder) :
    ((ProcessEvent2 c s).1 = false ↔ (c.ExecTasks s.fReader false).ok = false) ∧
      ((c.ExecTasks s.fReader false).ok = false →
        (ProcessEvent2 c s).2 = { s with fReader := (c.ExecTasks s.fReader false).reader } ∧
        (ProcessEvent2 c s).2.fAODjets = s.fAODjets ∧
        (ProcessEvent2 c s).2.fAODEvBkg = s.fAODEvBkg ∧
        (ProcessEvent2 c s).2.fInputFJ = s.fInputFJ ∧
        (ProcessEvent2 c s).2.fHeader = s.fHeader ∧
        (ProcessEvent2 c s).2.fReader = (c.ExecTasks s.fReader false).reader) ∧
      ((c.ExecTasks s.fReader false).ok = true → (ProcessEvent2 c s).1 = true) := by
  cases hok : (c.ExecTasks s.fReader false).ok with
  | false =>
    rw [ProcessEvent2_fail c s hok]
    simp
  | true =>
    rw [ProcessEvent2_ok c s hok]
    simp

/-- C8, witness: `ExecTasks` fails on an event with one unit of energy 5. -/
theorem C8_false_iff_ExecTasks_fails_witness :
    (ProcessEvent2 (exCollaborators false [0] [exPseudoJet 100] [exPseudoJet 0])
      (exFinder false (some [exUnit 5 7]))).1 = false ∧
    (ProcessEvent2 (exCollaborators false [0] [exPseudoJet 100] [exPseudoJet 0])
      (exFinder false (some [exUnit 5 7]))).2.fReader.fUnitArray = some [exUnit 5 7] ∧
    (ProcessEvent2 (exCollaborators true [0] [exPseudoJet 100] [exPseudoJet 0])
      (exFinder false none)).1 = true :=
  ⟨(C8_false_iff_ExecTasks_fails (exCollaborators false [0] [exPseudoJet 100] [exPseudoJet 0])
      (exFinder false (some [exUnit 5 7]))).1.mpr rfl,
   congrArg (fun r => r.fUnitArray)
    ((C8_false_iff_ExecTasks_fails (exCollaborators false [0] [exPseudoJet 100] [exPseudoJet 0])
      (exFinder false (some [exUnit 5 7]))).2.1 rfl).2.2.2.2.2,
   (C8_false_iff_ExecTasks_fails (exCollaborators true [0] [exPseudoJet 100] [exPseudoJet 0])
      (exFinder false none)).2.2 rfl⟩

/-! ## EtaToTheta -/

/-- C10. Over the reals, for every `eta` the angle `theta = EtaToTheta eta`
`= 2*atan(exp(-eta))` satisfies `0 < theta < pi` and `-ln(tan(theta/2)) = eta`. -/
theorem C10_EtaToTheta_inverts_pseudorapidity (eta : ℝ) :
    0 < EtaToTheta eta ∧ EtaToTheta eta < Real.pi ∧ pseudorapidity (EtaToTheta eta) = eta := by
  have hpos : 0 < Real.arctan (Real.exp (-eta)) := by
    have h := Real.arctan_strictMono (Real.exp_pos (-eta))
    rwa [Real.arctan_zero] at h
  have hlt : Real.arctan (Real.exp (-eta)) < Real.pi / 2 := Real.arctan_lt_pi_div_two _
  refine ⟨?_, ?_, ?_⟩
  · unfold EtaToTheta
    linarith
  · unfold EtaToTheta
    linarith
  · unfold pseudorapidity EtaToTheta
    have h2 : 2 * Real.arctan (Real.exp (-eta)) / 2 = Real.arctan (Real.exp (-eta)) := by ring
    rw [h2, Real.tan_arctan, Real.log_exp, neg_neg]

end AliFastJet
